import Mathlib

/-!
Verification of the Q&A interaction platform frontend.

This file gives a shallow embedding of the meaningful logic of the
repository:
* `services/api.js` (mock/remote `askQuestion`, `askQuestionReal`,
  `askQuestionMock`, `toUserFriendlyError`, the 30s abort timeout);
* `hooks/useLocalStorage.js` (`updateValue` and the persist effect);
* the `App` component (`canSubmit`, `handleSubmit`, `retry`,
  `loadFromHistory`, `clearHistory`, the history data model).

JavaScript strings are modelled as Lean `String`; JSON values as an
inductive `JsonValue`; a `fetch` interaction as an abstract
`FetchOutcome` covering network failure (`TypeError`), abort
(`AbortError`) and an HTTP response with status, status text,
content type, JSON-parse result and raw text body.
-/

namespace QA

/-- Whitespace characters removed by JavaScript `String.prototype.trim`
(ECMA-262 WhiteSpace and LineTerminator code points). -/
def jsWhitespace (c : Char) : Bool :=
  c == ' ' || c == '\t' || c == '\n' || c == '\r' ||
  c == '\u000B' || c == '\u000C' || c == ' ' || c == ' ' ||
  c == ' ' || c == ' ' || c == ' ' || c == ' ' ||
  c == ' ' || c == ' ' || c == ' ' || c == ' ' ||
  c == ' ' || c == ' ' || c == ' ' || c == ' ' ||
  c == ' ' || c == ' ' || c == ' ' || c == '　' ||
  c == '﻿'

/-- JavaScript `question.trim()`: strip leading and trailing whitespace. -/
def jsTrim (s : String) : String :=
  ⟨((s.data.dropWhile jsWhitespace).reverse.dropWhile jsWhitespace).reverse⟩

/-- Does the character list start with the given pattern?  Used to model
JavaScript `String.prototype.includes`. -/
def startMatch : List Char → List Char → Bool
  | [], _ => true
  | _ :: _, [] => false
  | p :: ps, c :: cs => p == c && startMatch ps cs

/-- Does the character list contain the pattern as a contiguous run? -/
def listHasSub (pat : List Char) : List Char → Bool
  | [] => startMatch pat []
  | c :: cs => startMatch pat (c :: cs) || listHasSub pat cs

/-- JavaScript `s.includes(pat)` (also used to model regex tests for
fixed alternatives). -/
def strIncludes (s pat : String) : Bool :=
  listHasSub pat.data s.data

/-- JSON values, the result of `JSON.parse` on a response body. -/
inductive JsonValue where
  | jnull
  | jbool (b : Bool)
  | jnum (n : Int)
  | jstr (s : String)
  | jarr (elems : List JsonValue)
  | jobj (fields : List (String × JsonValue))

/-- Property lookup on a JSON object field list (`body.message` etc.);
`none` models JavaScript `undefined`. -/
def lookupField : List (String × JsonValue) → String → Option JsonValue
  | [], _ => none
  | (k, v) :: rest, key => if k == key then some v else lookupField rest key

/-- `typeof body?.k === 'string' ? body.k : undefined`: the string value of
property `k` when the value is an object carrying a string there. -/
def strField (body : JsonValue) (k : String) : Option String :=
  match body with
  | .jobj fields =>
    match lookupField fields k with
    | some (.jstr s) => some s
    | _ => none
  | _ => none

/-- JavaScript truthiness of a parsed JSON value (`!data`). -/
def jsonTruthy : JsonValue → Bool
  | .jnull => false
  | .jbool b => b
  | .jnum n => n != 0
  | .jstr s => s != ""
  | .jarr _ => true
  | .jobj _ => true

/-- An HTTP response as observed by `askQuestionReal`: status, status text,
the `content-type` header (`''` when absent, per `|| ''`), the result of
`res.json()` (parsed value, or the `SyntaxError` message when parsing
throws) and the result of `res.text()`. -/
structure RemoteResponse where
  status : Nat
  statusText : String
  contentType : String
  json : Except String JsonValue
  text : String

/-- How the `fetch` call in `askQuestionReal` settles: a response, a
`TypeError` (network failure: DNS, CORS, offline) or an `AbortError`
(the abort signal fired). -/
inductive FetchOutcome where
  | success (r : RemoteResponse)
  | networkFailure (message : String)
  | aborted (message : String)

/-- A JavaScript error reaching the `catch` in `askQuestionReal`:
its `name`-based class (`AbortError` / `TypeError` / plain `Error`)
and its `message` string. -/
inductive JSError where
  | abortErr (message : String)
  | typeErr (message : String)
  | plainErr (message : String)

/-- The `message` property of a caught error. -/
def JSError.message : JSError → String
  | .abortErr m => m
  | .typeErr m => m
  | .plainErr m => m

def timeoutMessage : String :=
  "Request timed out after 30 seconds. Please try again."

def networkMessage : String :=
  "Network error. Please check your connection and try again."

def genericServerMessage : String :=
  "Something went wrong while contacting the server. Please try again."

def malformedMessage : String :=
  "Malformed response: expected JSON with an \"answer\" string field."

def invalidInputMessage : String :=
  "Question must be a non-empty string."

def submitFallbackMessage : String :=
  "Failed to get an answer. Please try again."

/-- `message.toLowerCase()` (character-wise, as the regex below only needs
ASCII case folding). -/
def strToLower (s : String) : String :=
  ⟨s.data.map Char.toLower⟩

/-- The test `/aborted|AbortError|timeout/i.test(message)`. -/
def abortRegexTest (message : String) : Bool :=
  let l := strToLower message
  strIncludes l "aborted" || strIncludes l "aborterror" || strIncludes l "timeout"

/-- `toUserFriendlyError` from `services/api.js`: convert low-level
fetch/abort errors into one of three fixed user-friendly messages. -/
def toUserFriendlyError (err : JSError) : String :=
  let message := err.message
  let isAbort :=
    (match err with | .abortErr _ => true | _ => false) || abortRegexTest message
  if isAbort then timeoutMessage
  else
    match err with
    | .typeErr _ => networkMessage
    | _ => genericServerMessage

/-- The backend-provided error message extracted for a non-2xx response:
a JSON `message` or `error` string field when the content type includes
`application/json` (empty when parsing fails), the raw text body
otherwise. -/
def serverMessageOf (r : RemoteResponse) : String :=
  if strIncludes r.contentType "application/json" then
    match r.json with
    | .ok body =>
      let m := match strField body "message" with | some m => m | none => ""
      if m != "" then m
      else match strField body "error" with | some e => e | none => ""
    | .error _ => ""
  else r.text

/-- The technical error message thrown for a non-2xx response:
`Request failed: <status> <statusText>` plus ` - <serverMessage>` when a
backend message is present. -/
def httpErrorMessage (r : RemoteResponse) : String :=
  let base := "Request failed: " ++ toString r.status ++ " " ++ r.statusText
  let sm := serverMessageOf r
  base ++ (if sm != "" then " - " ++ sm else "")

/-- The body of the `try` block of `askQuestionReal`: the value returned,
or the error thrown before normalization by `toUserFriendlyError`. -/
def rawAskReal (outcome : FetchOutcome) : Except JSError String :=
  match outcome with
  | .aborted m => .error (.abortErr m)
  | .networkFailure m => .error (.typeErr m)
  | .success r =>
    if !(decide (200 ≤ r.status) && decide (r.status ≤ 299)) then
      .error (.plainErr (httpErrorMessage r))
    else
      match r.json with
      | .error m => .error (.plainErr m)
      | .ok data =>
        if !jsonTruthy data then .error (.plainErr malformedMessage)
        else
          match strField data "answer" with
          | some a => .ok a
          | none => .error (.plainErr malformedMessage)

/-- `askQuestionReal` from `services/api.js`: the raw outcome with every
thrown error normalized by `toUserFriendlyError` before propagating.
The question string only affects the request body, not the result. -/
def askQuestionReal (question : String) (outcome : FetchOutcome) :
    Except String String :=
  match rawAskReal outcome with
  | .ok a => .ok a
  | .error e => .error (toUserFriendlyError e)

/-- The fixed request timeout (`setTimeout(() => controller.abort(), 30_000)`). -/
def timeoutMs : Nat := 30000

/-- Models the `AbortController` wiring of `askQuestionReal`: a fetch still
unsettled when the 30-second timer fires rejects with an `AbortError`;
otherwise the fetch settles with its own outcome. -/
def fetchWithTimeout (durationMs : Nat) (result : FetchOutcome) : FetchOutcome :=
  if timeoutMs ≤ durationMs then .aborted "The operation was aborted." else result

/-- `askQuestionMock` from `services/api.js`: after simulated latency,
resolve with the placeholder template embedding the question. -/
def askQuestionMock (question : String) : String :=
  "This is a placeholder answer for: \"" ++ question ++
    "\". Integrate with your backend API to return real agent responses."

/-- A JavaScript value passed as the `question` argument of `askQuestion`. -/
inductive JSValue where
  | jsUndefined
  | jsNull
  | jsBool (b : Bool)
  | jsNum (n : Int)
  | jsStr (s : String)
  | jsObject

/-- JavaScript truthiness (`!question`). -/
def jsTruthy : JSValue → Bool
  | .jsUndefined => false
  | .jsNull => false
  | .jsBool b => b
  | .jsNum n => n != 0
  | .jsStr s => s != ""
  | .jsObject => true

/-- `typeof question === 'string'`. -/
def jsIsString : JSValue → Bool
  | .jsStr _ => true
  | _ => false

/-- The underlying string of a string value (only reached on strings). -/
def jsStrVal : JSValue → String
  | .jsStr s => s
  | _ => ""

/-- `askQuestion` from `services/api.js`: validate the input, then
dispatch to mock or remote mode (`isMock = !API_BASE`). -/
def askQuestion (isMock : Bool) (question : JSValue) (outcome : FetchOutcome) :
    Except String String :=
  if !jsTruthy question || !jsIsString question then
    .error invalidInputMessage
  else if isMock then .ok (askQuestionMock (jsStrVal question))
  else askQuestionReal (jsStrVal question) outcome

/-- The argument passed to `updateValue` in `useLocalStorage`: a function
updater (which may throw, carrying the thrown message) or a plain value
(`typeof updater === 'function' ? updater(prev) : updater`). -/
inductive UpdaterArg (α : Type) where
  | fn (f : α → Except String α)
  | plain (v : α)

/-- The body of the `setValue` callback in `updateValue`: apply the
updater to the previous value; if it throws, keep the previous value. -/
def applyUpdater {α : Type} (prev : α) (u : UpdaterArg α) : α :=
  match u with
  | .plain v => v
  | .fn f =>
    match f prev with
    | .ok next => next
    | .error _ => prev

/-- The state owned by one `useLocalStorage` hook: the in-memory React
state and the serialized content under its key in `localStorage`
(`none` when the key is absent). -/
structure HookState (α : Type) where
  value : α
  stored : Option String

/-- The `useState` initializer of `useLocalStorage`: read the raw entry;
on a missing key or a parse failure fall back to `initialValue`. -/
def readInitial {α : Type} (stored : Option String)
    (parse : String → Except String α) (initialValue : α) : α :=
  match stored with
  | none => initialValue
  | some raw =>
    match parse raw with
    | .ok v => v
    | .error _ => initialValue

/-- The persist effect of `useLocalStorage`: serialize the current value
and write it under the key; serialization or write failures (quota,
availability, privacy mode) are swallowed, leaving storage unchanged.
`writeOk` is false when `localStorage.setItem` throws. -/
def persistEffect {α : Type} (s : HookState α)
    (serialize : α → Except String String) (writeOk : Bool) : HookState α :=
  match serialize s.value with
  | .error _ => s
  | .ok raw => if writeOk then { s with stored := some raw } else s

/-- `updateValue` from `useLocalStorage`, followed by the persist effect.
When the function updater throws, `setValue` returns the previous value
(the same reference), so React bails out and the effect does not rerun:
both the in-memory value and the stored entry keep their prior content. -/
def updateValue {α : Type} (s : HookState α) (u : UpdaterArg α)
    (serialize : α → Except String String) (writeOk : Bool) : HookState α :=
  match u with
  | .plain v => persistEffect { s with value := v } serialize writeOk
  | .fn f =>
    match f s.value with
    | .ok next => persistEffect { s with value := next } serialize writeOk
    | .error _ => s

/-- One recorded question/answer pair of the history sidebar. -/
structure HistoryEntry where
  id : String
  question : String
  answer : String
  timestamp : String
deriving DecidableEq

/-- The state of the `App` component relevant to its handlers: the
question textarea, the displayed answer, the loading flag, the error
message and the history list (newest first). -/
structure AppState where
  question : String
  answer : String
  loading : Bool
  error : String
  history : List HistoryEntry
deriving DecidableEq

/-- `canSubmit` from `App`: `!!question.trim() && !loading`. -/
def canSubmit (s : AppState) : Bool :=
  jsTrim s.question != "" && !s.loading

/-- The question string a submission passes to `askQuestion`
(`question.trim()`), `none` when the guard blocks submission. -/
def requestOf (s : AppState) : Option String :=
  if canSubmit s then some (jsTrim s.question) else none

/-- `handleSubmit` from `App`, as the state after the whole async run:
guard on `canSubmit`; on a resolved fetch display the answer, prepend the
new `HistoryEntry` (id and timestamp supplied by the environment) and
clear the question; on a rejected fetch display the error message (the
rejection message when it is a nonempty string, a fallback otherwise)
and leave the question and history untouched. -/
def handleSubmit (s : AppState) (fetchResult : Except String String)
    (freshId ts : String) : AppState :=
  if !canSubmit s then s
  else
    match fetchResult with
    | .ok response =>
      { s with
        loading := false
        error := ""
        answer := response
        history :=
          { id := freshId, question := jsTrim s.question, answer := response,
            timestamp := ts } :: s.history
        question := "" }
    | .error msg =>
      { s with
        loading := false
        answer := ""
        error := if msg != "" then msg else submitFallbackMessage }

/-- `retry` from `App`: guard `!question.trim() || loading`, then run
`handleSubmit` again on the current state. -/
def retry (s : AppState) (fetchResult : Except String String)
    (freshId ts : String) : AppState :=
  if jsTrim s.question == "" || s.loading then s
  else handleSubmit s fetchResult freshId ts

/-- `loadFromHistory` from `App`: restore the first entry with the given
id into the question and answer fields and clear the error. -/
def loadFromHistory (s : AppState) (entryId : String) : AppState :=
  match s.history.find? (fun h => h.id == entryId) with
  | none => s
  | some item =>
    { s with question := item.question, answer := item.answer, error := "" }

/-- `clearHistory` from `App`: gated on `window.confirm`; when confirmed,
empty the history, the answer and the error; otherwise change nothing. -/
def clearHistory (s : AppState) (confirmed : Bool) : AppState :=
  if confirmed then { s with history := [], answer := "", error := "" } else s

/-- Modelled from the spec: the per-item delete-entry operation of the
application view.  The `App` revision implementing it is not among the
sources; only its test is (`App.test.js`: "per-item delete removes only
that entry from history", clicking the "Delete this history item"
button).  Spec: "Deleting one entry by id removes exactly that entry and
preserves order of the rest." -/
def deleteEntry (s : AppState) (entryId : String) : AppState :=
  { s with history := s.history.filter (fun h => h.id != entryId) }

/-- A concrete non-2xx response used to settle the error-surfacing claim:
status 500 with a JSON body carrying a `message` field. -/
def errorResponse : RemoteResponse :=
  { status := 500, statusText := "Internal Server Error",
    contentType := "application/json",
    json := .ok (.jobj [("message", .jstr "database exploded")]), text := "" }

/-- The oldest entry of the concrete 200-entry history below. -/
def oldestEntry : HistoryEntry :=
  { id := "id0", question := "q0", answer := "a0", timestamp := "t0" }

/-- A concrete history at the claimed 200-entry cap (newest first, the
oldest entry last). -/
def fullHistory : List HistoryEntry :=
  ((List.range 199).map
    (fun i => { id := "id" ++ toString (i + 1), question := "q",
                answer := "a", timestamp := "t" })) ++ [oldestEntry]

/-- A concrete app state holding the 200-entry history, ready to submit. -/
def fullState : AppState :=
  { question := "Q201", answer := "", loading := false, error := "",
    history := fullHistory }

/- Concrete fixtures used to instantiate the theorems below. -/

def entryA : HistoryEntry :=
  { id := "1", question := "q1", answer := "a1", timestamp := "t1" }

def entryB : HistoryEntry :=
  { id := "2", question := "q2", answer := "a2", timestamp := "t2" }

def entryC : HistoryEntry :=
  { id := "3", question := "q3", answer := "a3", timestamp := "t3" }

/-- A concrete app state with three history entries. -/
def deleteState : AppState :=
  { question := "x", answer := "a", loading := false, error := "e",
    history := [entryA, entryB, entryC] }

/-- A concrete app state ready to submit (untrimmed question). -/
def submitState : AppState :=
  { question := "  What is AI?  ", answer := "old", loading := false,
    error := "", history := [entryA] }

/-- A concrete app state whose question is whitespace-only. -/
def blankState : AppState :=
  { question := "   ", answer := "", loading := false, error := "",
    history := [] }

/-- A concrete 200 response whose JSON body has a string `answer` field. -/
def okResponse : RemoteResponse :=
  { status := 200, statusText := "OK", contentType := "application/json",
    json := .ok (.jobj [("answer", .jstr "All good")]), text := "" }

/-- A concrete 200 response whose JSON body lacks an `answer` field. -/
def badShapeResponse : RemoteResponse :=
  { status := 200, statusText := "OK", contentType := "application/json",
    json := .ok (.jobj [("reply", .jstr "nope")]), text := "" }

/-- A concrete 200 response whose body does not parse as JSON. -/
def unparseableResponse : RemoteResponse :=
  { status := 200, statusText := "OK", contentType := "text/html",
    json := .error "Unexpected token < in JSON", text := "<html>" }

/- ### Helper lemmas -/

theorem startMatch_append (p rest : List Char) :
    startMatch p (p ++ rest) = true := by
  induction p with
  | nil => rfl
  | cons c cs ih => simp [startMatch, ih]

theorem listHasSub_cons_of_tail {pat : List Char} (c : Char) {l : List Char}
    (h : listHasSub pat l = true) : listHasSub pat (c :: l) = true := by
  simp [listHasSub, h]

theorem listHasSub_append_left (pre : List Char) {pat l : List Char}
    (h : listHasSub pat l = true) : listHasSub pat (pre ++ l) = true := by
  induction pre with
  | nil => simpa using h
  | cons c cs ih => simpa using listHasSub_cons_of_tail c ih

theorem listHasSub_self_append (pat rest : List Char) :
    listHasSub pat (pat ++ rest) = true := by
  cases pat with
  | nil =>
    cases rest with
    | nil => rfl
    | cons c cs => simp [listHasSub, startMatch]
  | cons c cs =>
    have h1 := startMatch_append (c :: cs) rest
    simp only [listHasSub, List.cons_append, Bool.or_eq_true]
    exact Or.inl h1

theorem strIncludes_append_mid (pre mid suf : String) :
    strIncludes (pre ++ mid ++ suf) mid = true := by
  show listHasSub mid.data (pre.data ++ mid.data ++ suf.data) = true
  rw [List.append_assoc]
  exact listHasSub_append_left pre.data (listHasSub_self_append mid.data suf.data)

theorem strIncludes_parts {s : String} (pre mid suf : String)
    (h : s = pre ++ mid ++ suf) : strIncludes s mid = true := by
  rw [h]
  exact strIncludes_append_mid pre mid suf

theorem strIncludes_append_right (pre mid : String) :
    strIncludes (pre ++ mid) mid = true := by
  show listHasSub mid.data (pre.data ++ mid.data) = true
  have := listHasSub_self_append mid.data []
  simp only [List.append_nil] at this
  exact listHasSub_append_left pre.data this

theorem toUserFriendlyError_mem (e : JSError) :
    toUserFriendlyError e = timeoutMessage ∨
    toUserFriendlyError e = networkMessage ∨
    toUserFriendlyError e = genericServerMessage := by
  cases e with
  | abortErr m => exact Or.inl (by simp [toUserFriendlyError])
  | typeErr m =>
    by_cases h : abortRegexTest m
    · exact Or.inl (by simp [toUserFriendlyError, JSError.message, h])
    · exact Or.inr (Or.inl (by simp [toUserFriendlyError, JSError.message, h]))
  | plainErr m =>
    by_cases h : abortRegexTest m
    · exact Or.inl (by simp [toUserFriendlyError, JSError.message, h])
    · exact Or.inr (Or.inr (by simp [toUserFriendlyError, JSError.message, h]))

theorem toUserFriendlyError_plain (m : String) :
    toUserFriendlyError (.plainErr m) = timeoutMessage ∨
    toUserFriendlyError (.plainErr m) = genericServerMessage := by
  by_cases h : abortRegexTest m
  · exact Or.inl (by simp [toUserFriendlyError, JSError.message, h])
  · exact Or.inr (by simp [toUserFriendlyError, JSError.message, h])

theorem toUserFriendlyError_ne_invalid (e : JSError) :
    toUserFriendlyError e ≠ invalidInputMessage := by
  rcases toUserFriendlyError_mem e with h | h | h <;> rw [h] <;> decide

theorem strField_jsonTruthy {body : JsonValue} {k a : String}
    (h : strField body k = some a) : jsonTruthy body = true := by
  cases body <;> first | rfl | simp [strField] at h

theorem canSubmit_trim_ne {s : AppState} (h : canSubmit s = true) :
    (jsTrim s.question != "") = true := by
  have := h
  unfold canSubmit at this
  exact (Bool.and_eq_true ..).mp this |>.1

/- ### Claim theorems -/

/-- Claim C10: the clear-all-history operation is gated on a user
confirmation dialog: when confirmation is given, the history list, the
displayed answer and the error message are all emptied (the question and
loading flag are untouched); when confirmation is declined, the whole
state is left unchanged. -/
theorem clearHistory_confirmation (s : AppState) :
    (clearHistory s true).history = [] ∧
    (clearHistory s true).answer = "" ∧
    (clearHistory s true).error = "" ∧
    (clearHistory s true).question = s.question ∧
    (clearHistory s true).loading = s.loading ∧
    clearHistory s false = s := by
  simp [clearHistory]

/-- Claim C9: a submission passes `question.trim()` to `askQuestion` and
stores the same trimmed string in the created `HistoryEntry`'s `question`
field; a whitespace-only input trims to the empty string, so it disables
submission and `handleSubmit` changes nothing. -/
theorem submit_trims_question (s : AppState) (resp freshId ts : String)
    (h : canSubmit s = true) :
    requestOf s = some (jsTrim s.question) ∧
    (handleSubmit s (.ok resp) freshId ts).history.head? =
      some { id := freshId, question := jsTrim s.question, answer := resp,
             timestamp := ts } ∧
    (∀ s' : AppState, jsTrim s'.question = "" →
      canSubmit s' = false ∧ ∀ res i t, handleSubmit s' res i t = s') := by
  refine ⟨by simp [requestOf, h], by simp [handleSubmit, h], ?_⟩
  intro s' hs'
  have hc : canSubmit s' = false := by
    unfold canSubmit
    simp [hs']
  exact ⟨hc, fun res i t => by simp [handleSubmit, hc]⟩

/-- Claim C8: when the fetch rejects, the question field keeps its content,
a nonempty error is displayed, the history is unchanged, the request a
retry would issue is identical to the original, and `retry` re-runs
`handleSubmit` on the failed state; when the fetch resolves, the question
field is cleared and the prior history entries sit unchanged below the
newly prepended entry. -/
theorem submit_failure_frame (s : AppState) (msg resp freshId ts : String)
    (h : canSubmit s = true) :
    (handleSubmit s (.error msg) freshId ts).question = s.question ∧
    (handleSubmit s (.error msg) freshId ts).error ≠ "" ∧
    (handleSubmit s (.error msg) freshId ts).history = s.history ∧
    requestOf (handleSubmit s (.error msg) freshId ts) = requestOf s ∧
    (∀ r2 i2 t2, retry (handleSubmit s (.error msg) freshId ts) r2 i2 t2 =
      handleSubmit (handleSubmit s (.error msg) freshId ts) r2 i2 t2) ∧
    (handleSubmit s (.ok resp) freshId ts).question = "" ∧
    (handleSubmit s (.ok resp) freshId ts).history =
      { id := freshId, question := jsTrim s.question, answer := resp,
        timestamp := ts } :: s.history := by
  have hq := canSubmit_trim_ne h
  have hfail : handleSubmit s (.error msg) freshId ts =
      { s with loading := false, answer := "",
               error := if msg != "" then msg else submitFallbackMessage } := by
    simp [handleSubmit, h]
  have hcfail : canSubmit (handleSubmit s (.error msg) freshId ts) = true := by
    rw [hfail]
    unfold canSubmit
    simp only [Bool.not_false, Bool.and_true]
    exact hq
  refine ⟨by rw [hfail], ?_, by rw [hfail], ?_, ?_, by simp [handleSubmit, h],
    by simp [handleSubmit, h]⟩
  · rw [hfail]
    by_cases hm : (msg != "") = true
    · simp only [hm, if_true]
      exact fun hcon => by simp [hcon] at hm
    · have hm' : (msg != "") = false := by
        cases hb : (msg != "") with
        | false => rfl
        | true => exact absurd hb hm
      simp only [hm', Bool.false_eq_true, if_false]
      decide
  · rw [requestOf, requestOf, hcfail, h, hfail]
  · intro r2 i2 t2
    rw [retry]
    have : (jsTrim (handleSubmit s (.error msg) freshId ts).question == "") = false := by
      rw [hfail]
      simpa [bne] using hq
    rw [hfail] at this ⊢
    simp [this]

/-- Claim C7: `update(key, fn)` applies `fn` to the prior value and stores
the result (in memory, and — when serialization and the write succeed —
in storage); when `fn` throws, the hook state is unchanged: the in-memory
value and the stored entry both keep their prior content. -/
theorem updateValue_spec {α : Type} (s : HookState α) (f : α → Except String α)
    (serialize : α → Except String String) (writeOk : Bool) :
    (∀ next, f s.value = .ok next →
      (updateValue s (.fn f) serialize writeOk).value = next) ∧
    (∀ next raw, f s.value = .ok next → serialize next = .ok raw →
      writeOk = true →
      (updateValue s (.fn f) serialize writeOk).stored = some raw) ∧
    (∀ e, f s.value = .error e → updateValue s (.fn f) serialize writeOk = s) := by
  refine ⟨?_, ?_, ?_⟩
  · intro next hf
    cases hs : serialize next with
    | ok raw => cases writeOk <;> simp [updateValue, persistEffect, hf, hs]
    | error e => simp [updateValue, persistEffect, hf, hs]
  · intro next raw hf hser hw
    simp [updateValue, persistEffect, hf, hser, hw]
  · intro e hf
    simp [updateValue, hf]

/-- Claim C6: remote requests run under a fixed 30-second timeout; a fetch
still unsettled when the timer fires is aborted, and such a timed-out
request surfaces the distinct "request timed out" message, different from
both the network-error and the generic server-error messages. -/
theorem timeout_distinct_message (q : String) (durationMs : Nat)
    (result : FetchOutcome) (h : timeoutMs ≤ durationMs) :
    timeoutMs = 30000 ∧
    fetchWithTimeout durationMs result = .aborted "The operation was aborted." ∧
    askQuestionReal q (fetchWithTimeout durationMs result) =
      .error timeoutMessage ∧
    timeoutMessage ≠ networkMessage ∧
    timeoutMessage ≠ genericServerMessage := by
  have habort : fetchWithTimeout durationMs result =
      .aborted "The operation was aborted." := by
    unfold fetchWithTimeout
    simp [h]
  refine ⟨rfl, habort, ?_, by decide, by decide⟩
  rw [habort]
  simp [askQuestionReal, rawAskReal, toUserFriendlyError]

/-- Claim C5: `askQuestion` rejects any empty or non-string input with the
invalid-input error, in both modes and before any fetch outcome matters;
a non-empty string input never produces the invalid-input error. -/
theorem ask_invalid_input_gate (v : JSValue) (mock : Bool)
    (outcome : FetchOutcome) :
    ((jsTruthy v = false ∨ jsIsString v = false) →
      askQuestion mock v outcome = .error invalidInputMessage) ∧
    (∀ q : String, q ≠ "" →
      askQuestion mock (.jsStr q) outcome ≠ .error invalidInputMessage) := by
  constructor
  · intro h
    unfold askQuestion
    rcases h with h | h <;> simp [h]
  · intro q hq
    have ht : jsTruthy (.jsStr q) = true := by
      unfold jsTruthy
      simpa [bne] using hq
    unfold askQuestion
    rw [ht]
    simp only [jsIsString, Bool.not_true, Bool.false_or, Bool.or_self,
      Bool.false_eq_true, if_false]
    cases mock with
    | true => simp
    | false =>
      simp only [Bool.false_eq_true, if_false]
      unfold askQuestionReal
      cases rawAskReal outcome with
      | ok a => simp
      | error e =>
        simpa using toUserFriendlyError_ne_invalid e

/-- Claim C4: for every non-empty question, in mock mode `ask` resolves to
the placeholder string containing the input question; in remote mode a
200 response whose JSON body has a string `answer` field resolves to
exactly that `answer` verbatim, while a 200 body of any other shape
(falsy body, no string `answer` field, or an unparseable body) makes the
call reject — when the body parsed, with the malformed-response error as
the underlying thrown error. -/
theorem ask_resolution (q : String) (hq : q ≠ "") (outcome : FetchOutcome)
    (r : RemoteResponse) :
    (askQuestion true (.jsStr q) outcome = .ok (askQuestionMock q) ∧
      strIncludes (askQuestionMock q) q = true) ∧
    (∀ body a, r.status = 200 → r.json = .ok body →
      strField body "answer" = some a →
      askQuestion false (.jsStr q) (.success r) = .ok a) ∧
    (∀ body, r.status = 200 → r.json = .ok body →
      (jsonTruthy body = false ∨ strField body "answer" = none) →
      rawAskReal (.success r) = .error (.plainErr malformedMessage) ∧
      askQuestion false (.jsStr q) (.success r) =
        .error (toUserFriendlyError (.plainErr malformedMessage))) ∧
    (∀ em, r.status = 200 → r.json = .error em →
      ∃ m, askQuestion false (.jsStr q) (.success r) = .error m) := by
  have ht : jsTruthy (.jsStr q) = true := by
    unfold jsTruthy
    simpa [bne] using hq
  have hgate : ∀ oc, askQuestion false (.jsStr q) oc = askQuestionReal q oc := by
    intro oc
    unfold askQuestion
    rw [ht]
    simp [jsIsString, jsStrVal]
  refine ⟨⟨?_, ?_⟩, ?_, ?_, ?_⟩
  · unfold askQuestion
    rw [ht]
    simp [jsIsString, jsStrVal]
  · exact strIncludes_append_mid
      "This is a placeholder answer for: \"" q
      "\". Integrate with your backend API to return real agent responses."
  · intro body a hst hj ha
    rw [hgate]
    have htr := strField_jsonTruthy ha
    unfold askQuestionReal rawAskReal
    simp [hst, hj, htr, ha]
  · intro body hst hj hshape
    have hraw : rawAskReal (.success r) = .error (.plainErr malformedMessage) := by
      unfold rawAskReal
      rcases hshape with hb | hb
      · simp [hst, hj, hb]
      · cases htr : jsonTruthy body with
        | false => simp [hst, hj, htr]
        | true => simp [hst, hj, htr, hb]
    refine ⟨hraw, ?_⟩
    rw [hgate]
    unfold askQuestionReal
    rw [hraw]
  · intro em hst hj
    rw [hgate]
    unfold askQuestionReal rawAskReal
    simp [hst, hj]

/-- Claim C3 (counterexample): for a 500 response whose JSON body carries
the message "database exploded", `ask` rejects with the fixed generic
server message, which surfaces neither the status code 500, nor the
status text, nor the body's message — refuting the claim that the
rejection surfaces them. -/
theorem nonOk_error_not_surfaced :
    askQuestion false (.jsStr "why") (.success errorResponse) =
      .error genericServerMessage ∧
    strIncludes genericServerMessage "500" = false ∧
    strIncludes genericServerMessage "Internal Server Error" = false ∧
    strIncludes genericServerMessage "database exploded" = false := by
  refine ⟨?_, by decide, by decide, by decide⟩
  rfl

/-- Claim C3 (amended): for every non-2xx response, `askQuestionReal`
internally throws an error whose message embeds the status code, the
status text and (when present) the backend-provided message; but
`toUserFriendlyError` normalizes it before `ask` rejects, so the surfaced
error is the fixed generic server message — or the timed-out message when
the internal text happens to match the abort/timeout pattern — and not
the status details. -/
theorem nonOk_error_internal_detail (q : String) (hq : q ≠ "")
    (r : RemoteResponse)
    (h : (decide (200 ≤ r.status) && decide (r.status ≤ 299)) = false) :
    rawAskReal (.success r) = .error (.plainErr (httpErrorMessage r)) ∧
    strIncludes (httpErrorMessage r) (toString r.status) = true ∧
    strIncludes (httpErrorMessage r) r.statusText = true ∧
    (serverMessageOf r ≠ "" →
      strIncludes (httpErrorMessage r) (serverMessageOf r) = true) ∧
    (askQuestion false (.jsStr q) (.success r) = .error timeoutMessage ∨
      askQuestion false (.jsStr q) (.success r) = .error genericServerMessage) := by
  have hraw : rawAskReal (.success r) = .error (.plainErr (httpErrorMessage r)) := by
    unfold rawAskReal
    simp [h]
  refine ⟨hraw, ?_, ?_, ?_, ?_⟩
  · refine strIncludes_parts "Request failed: " (toString r.status)
      (" " ++ r.statusText ++
        (if serverMessageOf r != "" then " - " ++ serverMessageOf r else "")) ?_
    unfold httpErrorMessage
    simp [String.append_assoc]
  · refine strIncludes_parts ("Request failed: " ++ toString r.status ++ " ")
      r.statusText
      (if serverMessageOf r != "" then " - " ++ serverMessageOf r else "") ?_
    unfold httpErrorMessage
    simp [String.append_assoc]
  · intro hsm
    have hsm' : (serverMessageOf r != "") = true := by
      simpa [bne] using hsm
    refine strIncludes_parts
      ("Request failed: " ++ toString r.status ++ " " ++ r.statusText ++ " - ")
      (serverMessageOf r) "" ?_
    unfold httpErrorMessage
    simp [hsm', String.append_assoc]
  · have ht : jsTruthy (.jsStr q) = true := by
      unfold jsTruthy
      simpa [bne] using hq
    have hgate : askQuestion false (.jsStr q) (.success r) =
        askQuestionReal q (.success r) := by
      unfold askQuestion
      rw [ht]
      simp [jsIsString, jsStrVal]
    rw [hgate]
    rcases toUserFriendlyError_plain (httpErrorMessage r) with h1 | h1
    · exact Or.inl (by simp [askQuestionReal, hraw, h1])
    · exact Or.inr (by simp [askQuestionReal, hraw, h1])

/-- Claim C2: for a history containing exactly one entry with the target
id, `deleteEntry` removes exactly that entry, leaves every other entry in
its original relative order, and does not touch the rest of the state.
The delete operation is modelled from the spec (see `deleteEntry`). -/
theorem deleteEntry_removes_exactly (s : AppState) (pre post : List HistoryEntry)
    (e : HistoryEntry) (targetId : String)
    (hs : s.history = pre ++ e :: post)
    (he : e.id = targetId)
    (hothers : ∀ h ∈ pre ++ post, h.id ≠ targetId) :
    (deleteEntry s targetId).history = pre ++ post ∧
    (deleteEntry s targetId).question = s.question ∧
    (deleteEntry s targetId).answer = s.answer ∧
    (deleteEntry s targetId).error = s.error := by
  refine ⟨?_, rfl, rfl, rfl⟩
  show s.history.filter (fun h => h.id != targetId) = pre ++ post
  have hpre : pre.filter (fun h => h.id != targetId) = pre :=
    List.filter_eq_self.mpr
      (fun a ha => bne_iff_ne.mpr (hothers a (List.mem_append_left _ ha)))
  have hpost : post.filter (fun h => h.id != targetId) = post :=
    List.filter_eq_self.mpr
      (fun a ha => bne_iff_ne.mpr (hothers a (List.mem_append_right _ ha)))
  rw [hs, List.filter_append, hpre, List.filter_cons]
  simp only [he, bne_self_eq_false, Bool.false_eq_true, if_false]
  rw [hpost]

/-- Claim C1: refuted by the code — `handleSubmit` prepends the new entry
with no cap: submitting into the concrete 200-entry history yields 201
entries; the new entry does sit at index 0, but the oldest entry is still
present instead of being evicted. -/
theorem history_cap_violated :
    fullState.history.length = 200 ∧
    (handleSubmit fullState (.ok "ans") "idNew" "ts").history.length = 201 ∧
    (handleSubmit fullState (.ok "ans") "idNew" "ts").history.head? =
      some { id := "idNew", question := "Q201", answer := "ans",
             timestamp := "ts" } ∧
    oldestEntry ∈ (handleSubmit fullState (.ok "ans") "idNew" "ts").history := by
  have hc : canSubmit fullState = true := by decide
  have hq : jsTrim fullState.question = "Q201" := by decide
  have hsub : handleSubmit fullState (.ok "ans") "idNew" "ts" =
      { question := "", answer := "ans", loading := false, error := "",
        history :=
          { id := "idNew", question := "Q201", answer := "ans",
            timestamp := "ts" } :: fullState.history } := by
    simp [handleSubmit, hc, hq]
  have hlen : fullState.history.length = 200 := by
    show fullHistory.length = 200
    simp [fullHistory]
  refine ⟨hlen, ?_, ?_, ?_⟩
  · rw [hsub]
    simp [hlen]
  · rw [hsub]
    simp
  · rw [hsub]
    refine List.mem_cons_of_mem _ ?_
    show oldestEntry ∈ fullHistory
    exact List.mem_append_right _ (List.mem_singleton.mpr rfl)

/- ### Witnesses -/

/-- Witness for `deleteEntry_removes_exactly` at a concrete three-entry
history, deleting the middle entry by id. -/
theorem deleteEntry_removes_exactly_witness :
    (deleteEntry deleteState "2").history = [entryA, entryC] ∧
    (deleteEntry deleteState "2").question = deleteState.question ∧
    (deleteEntry deleteState "2").answer = deleteState.answer ∧
    (deleteEntry deleteState "2").error = deleteState.error :=
  deleteEntry_removes_exactly deleteState [entryA] [entryC] entryB "2"
    rfl rfl (by decide)

/-- Witness for `nonOk_error_internal_detail` at the concrete 500
response. -/
theorem nonOk_error_internal_detail_witness :
    rawAskReal (.success errorResponse) =
      .error (.plainErr (httpErrorMessage errorResponse)) ∧
    strIncludes (httpErrorMessage errorResponse)
      (toString errorResponse.status) = true ∧
    strIncludes (httpErrorMessage errorResponse)
      errorResponse.statusText = true ∧
    strIncludes (httpErrorMessage errorResponse)
      (serverMessageOf errorResponse) = true ∧
    (askQuestion false (.jsStr "why") (.success errorResponse) =
        .error timeoutMessage ∨
      askQuestion false (.jsStr "why") (.success errorResponse) =
        .error genericServerMessage) :=
  have t := nonOk_error_internal_detail "why" (by decide) errorResponse (by decide)
  ⟨t.1, t.2.1, t.2.2.1, t.2.2.2.1 (by decide), t.2.2.2.2⟩

/-- Witness for `ask_resolution` at concrete responses: a well-formed
200 answer, a 200 body without an `answer` field, and an unparseable
200 body. -/
theorem ask_resolution_witness :
    (askQuestion true (.jsStr "What is AI?") (.networkFailure "x") =
        .ok (askQuestionMock "What is AI?") ∧
      strIncludes (askQuestionMock "What is AI?") "What is AI?" = true) ∧
    askQuestion false (.jsStr "What is AI?") (.success okResponse) =
      .ok "All good" ∧
    (rawAskReal (.success badShapeResponse) =
        .error (.plainErr malformedMessage) ∧
      askQuestion false (.jsStr "What is AI?") (.success badShapeResponse) =
        .error (toUserFriendlyError (.plainErr malformedMessage))) ∧
    (∃ m, askQuestion false (.jsStr "What is AI?")
      (.success unparseableResponse) = .error m) :=
  have t1 := ask_resolution "What is AI?" (by decide) (.networkFailure "x")
    okResponse
  have t2 := ask_resolution "What is AI?" (by decide) (.networkFailure "x")
    badShapeResponse
  have t3 := ask_resolution "What is AI?" (by decide) (.networkFailure "x")
    unparseableResponse
  ⟨t1.1,
   t1.2.1 (.jobj [("answer", .jstr "All good")]) "All good" rfl rfl rfl,
   t2.2.2.1 (.jobj [("reply", .jstr "nope")]) rfl rfl (Or.inr rfl),
   t3.2.2.2 "Unexpected token < in JSON" rfl rfl⟩

/-- Witness for `ask_invalid_input_gate` at a null input, an empty-string
input and a non-empty string input. -/
theorem ask_invalid_input_gate_witness :
    askQuestion true .jsNull (.networkFailure "x") =
      .error invalidInputMessage ∧
    askQuestion false (.jsStr "") (.networkFailure "x") =
      .error invalidInputMessage ∧
    askQuestion false (.jsStr "hello") (.networkFailure "x") ≠
      .error invalidInputMessage :=
  ⟨(ask_invalid_input_gate .jsNull true (.networkFailure "x")).1 (Or.inl rfl),
   (ask_invalid_input_gate (.jsStr "") false (.networkFailure "x")).1
     (Or.inl rfl),
   (ask_invalid_input_gate (.jsStr "hello") false (.networkFailure "x")).2
     "hello" (by decide)⟩

/-- Witness for `timeout_distinct_message` at exactly the 30-second mark. -/
theorem timeout_distinct_message_witness :
    timeoutMs = 30000 ∧
    fetchWithTimeout 30000 (.networkFailure "x") =
      .aborted "The operation was aborted." ∧
    askQuestionReal "slow" (fetchWithTimeout 30000 (.networkFailure "x")) =
      .error timeoutMessage ∧
    timeoutMessage ≠ networkMessage ∧
    timeoutMessage ≠ genericServerMessage :=
  timeout_distinct_message "slow" 30000 (.networkFailure "x") (by decide)

/-- Witness for `updateValue_spec` at a concrete Nat-valued hook state,
with a succeeding and a throwing updater. -/
theorem updateValue_spec_witness :
    (updateValue (⟨5, some "5"⟩ : HookState Nat) (.fn fun v => .ok (v + 1))
      (fun v => .ok (toString v)) true).value = 6 ∧
    (updateValue (⟨5, some "5"⟩ : HookState Nat) (.fn fun v => .ok (v + 1))
      (fun v => .ok (toString v)) true).stored = some "6" ∧
    updateValue (⟨5, some "5"⟩ : HookState Nat) (.fn fun _ => .error "boom")
      (fun v => .ok (toString v)) true = ⟨5, some "5"⟩ :=
  have t := updateValue_spec (⟨5, some "5"⟩ : HookState Nat)
    (fun v => .ok (v + 1)) (fun v => .ok (toString v)) true
  have t2 := updateValue_spec (⟨5, some "5"⟩ : HookState Nat)
    (fun _ => .error "boom") (fun v => .ok (toString v)) true
  ⟨t.1 6 rfl, t.2.1 6 "6" rfl rfl rfl, t2.2.2 "boom" rfl⟩

/-- Witness for `submit_failure_frame` at a concrete submission-ready
state, with a rejected and a resolved fetch. -/
theorem submit_failure_frame_witness :
    (handleSubmit submitState (.error "boom") "idN" "tN").question =
      submitState.question ∧
    (handleSubmit submitState (.error "boom") "idN" "tN").error ≠ "" ∧
    (handleSubmit submitState (.error "boom") "idN" "tN").history =
      submitState.history ∧
    requestOf (handleSubmit submitState (.error "boom") "idN" "tN") =
      requestOf submitState ∧
    retry (handleSubmit submitState (.error "boom") "idN" "tN")
        (.ok "r2") "i2" "t2" =
      handleSubmit (handleSubmit submitState (.error "boom") "idN" "tN")
        (.ok "r2") "i2" "t2" ∧
    (handleSubmit submitState (.ok "resp") "idN" "tN").question = "" ∧
    (handleSubmit submitState (.ok "resp") "idN" "tN").history =
      { id := "idN", question := jsTrim submitState.question,
        answer := "resp", timestamp := "tN" } :: submitState.history :=
  have t := submit_failure_frame submitState "boom" "resp" "idN" "tN"
    (by decide)
  ⟨t.1, t.2.1, t.2.2.1, t.2.2.2.1, t.2.2.2.2.1 (.ok "r2") "i2" "t2",
   t.2.2.2.2.2.1, t.2.2.2.2.2.2⟩

/-- Witness for `submit_trims_question` at a concrete untrimmed question
and a whitespace-only question. -/
theorem submit_trims_question_witness :
    requestOf submitState = some (jsTrim submitState.question) ∧
    (handleSubmit submitState (.ok "resp") "idN" "tN").history.head? =
      some { id := "idN", question := jsTrim submitState.question,
             answer := "resp", timestamp := "tN" } ∧
    canSubmit blankState = false ∧
    handleSubmit blankState (.ok "x") "i" "t" = blankState :=
  have t := submit_trims_question submitState "resp" "idN" "tN" (by decide)
  ⟨t.1, t.2.1, (t.2.2 blankState (by decide)).1,
   (t.2.2 blankState (by decide)).2 (.ok "x") "i" "t"⟩

end QA
